import Mathlib

/-
  Verification of the Qt6 pretty-printer decoders (qt6printers/core.py).

  The file gives a shallow embedding of the decoders' arithmetic and
  control flow and proves theorems checking the specified behaviour.

  Conventions of the embedding:
  * gdb.Value integer arithmetic follows C semantics of the backing
    signed integer type: division truncates toward zero (Int.tdiv) and
    the remainder takes the sign of the dividend (Int.tmod).  Wrap-around
    of the 64-bit backing type is not modelled; all values of interest
    lie far below the overflow range.
  * Python "%0Nd" (and f-string "{x:0N}") formatting is modelled by fmt0d.
  * A null pointer is modelled as Option.none where it selects control
    flow, and a raised Python/gdb exception as Except.error.
-/

/-- Python zero padding "%0Nd": digits padded with zeros to total width
`w`, a sign counting toward the width. -/
def fmt0d (w : Nat) (n : Int) : String :=
  if n < 0 then
    "-" ++ (String.mk (List.replicate (w - 1 - (toString (-n)).length) '0') ++ toString (-n))
  else
    String.mk (List.replicate (w - (toString n).length) '0') ++ toString n

/-- Port of QDatePrinter.to_string (core.py lines 553-585).  `jd` is the
Julian day number read from the QDate's `jd` field. -/
def qdate_to_string (jd : Int) : String :=
  if jd = 0 then "invalid QDate"
  else if 2299161 ≤ jd then
    let ell := jd + 68569
    let n := Int.tdiv (4 * ell) 146097
    let ell := ell - Int.tdiv (146097 * n + 3) 4
    let i := Int.tdiv (4000 * (ell + 1)) 1461001
    let ell := ell - Int.tdiv (1461 * i) 4 + 31
    let j := Int.tdiv (80 * ell) 2447
    let d := ell - Int.tdiv (2447 * j) 80
    let ell := Int.tdiv j 11
    let m := j + 2 - 12 * ell
    let y := 100 * (n - 49) + i + ell
    toString y ++ "-" ++ fmt0d 2 m ++ "-" ++ fmt0d 2 d
  else
    let jd2 := jd + 32082
    let dd := Int.tdiv (4 * jd2 + 3) 1461
    let ee := jd2 - Int.tdiv (1461 * dd) 4
    let mm := Int.tdiv (5 * ee + 2) 153
    let d := ee - Int.tdiv (153 * mm + 2) 5 + 1
    let m := mm + 3 - 12 * Int.tdiv mm 10
    let y0 := dd - 4800 + Int.tdiv mm 10
    let y := if y0 ≤ 0 then y0 - 1 else y0
    toString y ++ "-" ++ fmt0d 2 m ++ "-" ++ fmt0d 2 d

/-- The Gregorian-branch conversion formula of Fliegel and Van Flandern,
as the spec describes it (integer arithmetic, division truncating toward
zero): refinement target for the `jd >= 2299161` branch. -/
def gregorianDateString (jd : Int) : String :=
  let ell := jd + 68569
  let n := Int.tdiv (4 * ell) 146097
  let ell := ell - Int.tdiv (146097 * n + 3) 4
  let i := Int.tdiv (4000 * (ell + 1)) 1461001
  let ell := ell - Int.tdiv (1461 * i) 4 + 31
  let j := Int.tdiv (80 * ell) 2447
  let d := ell - Int.tdiv (2447 * j) 80
  let ell := Int.tdiv j 11
  let m := j + 2 - 12 * ell
  let y := 100 * (n - 49) + i + ell
  toString y ++ "-" ++ fmt0d 2 m ++ "-" ++ fmt0d 2 d

/-- The Julian-branch conversion formula (Claus Toendering), as the spec
describes it: refinement target for the `jd < 2299161` branch. -/
def julianDateString (jd : Int) : String :=
  let jd2 := jd + 32082
  let dd := Int.tdiv (4 * jd2 + 3) 1461
  let ee := jd2 - Int.tdiv (1461 * dd) 4
  let mm := Int.tdiv (5 * ee + 2) 153
  let d := ee - Int.tdiv (153 * mm + 2) 5 + 1
  let m := mm + 3 - 12 * Int.tdiv mm 10
  let y0 := dd - 4800 + Int.tdiv mm 10
  let y := if y0 ≤ 0 then y0 - 1 else y0
  toString y ++ "-" ++ fmt0d 2 m ++ "-" ++ fmt0d 2 d

/-- Port of QTimePrinter.to_string (core.py lines 593-607).  `ds` is the
milliseconds-since-midnight count read from the QTime's `mds` field. -/
def qtime_to_string (ds : Int) : String :=
  if ds = -1 then "invalid QTime"
  else
    let hour := Int.tdiv ds 3600000
    let minute := Int.tdiv (Int.tmod ds 3600000) 60000
    let second := Int.tmod (Int.tdiv ds 1000) 60
    let msec := Int.tmod ds 1000
    fmt0d 2 hour ++ ":" ++ fmt0d 2 minute ++ ":" ++ fmt0d 2 second ++ "." ++ fmt0d 3 msec

/-- Port of timeZoneId (core.py lines 616-631).  The TimeSpec enum values
are LocalTime = 0, UTC = 1, OffsetFromUTC = 2, TimeZone = 3. -/
def timeZoneId (spec : Int) (offsetFromUtc : Int) : String :=
  if spec = 0 then "Local"
  else if spec = 1 then "UTC"
  else if spec = 2 then
    "UTC" ++ (if offsetFromUtc < 0 then "-" else "+")
        ++ fmt0d 2 (Int.ofNat (offsetFromUtc.natAbs / 3600)) ++ ":"
        ++ fmt0d 2 (Int.ofNat (offsetFromUtc.natAbs % 3600 / 60))
  else if spec = 3 then "<invalid>"
  else "<error: unhandled time spec " ++ toString spec ++ ">"

/-- The decoded field record behind a QUrl's `d` pointer (port of the
offset walk of QUrlPrinter.to_string, lines 745-768, at the level of the
decoded values: ref count skipped, then port, scheme, username, password
skipped, host, path, query, fragment). -/
structure QUrlFields where
  port : Int
  scheme : String
  username : String
  host : String
  path : String
  query : String
  fragment : String

/-- Port of the URL assembly block of QUrlPrinter.to_string (core.py
lines 770-786). -/
def composeUrl (f : QUrlFields) : String :=
  let url := ""
  let url := if 0 < f.scheme.length then url ++ (f.scheme ++ "://") else url
  let url := if 0 < f.host.length then
      (let url := if 0 < f.username.length then url ++ (f.username ++ "@") else url
       let url := url ++ f.host
       if f.port ≠ -1 then url ++ (":" ++ toString f.port) else url)
    else url
  let url := url ++ f.path
  let url := if 0 < f.query.length then url ++ ("?" ++ f.query) else url
  if 0 < f.fragment.length then url ++ ("#" ++ f.fragment) else url

/-- Port of QUrlPrinter.to_string: a null `d` pointer renders the
"<invalid>" token, otherwise the composed URL from the decoded fields
(the gdb-side fallback paths on a read failure are host-external). -/
def qurl_to_string (d : Option QUrlFields) : String :=
  match d with
  | none => "<invalid>"
  | some f => composeUrl f

theorem string_data_append (s t : String) : (s ++ t).data = s.data ++ t.data := by
  cases s; cases t; rfl

theorem string_empty_append (s : String) : "" ++ s = s := by
  cases s; rfl

theorem string_append_empty (s : String) : s ++ "" = s := by
  cases s with
  | mk l =>
    show String.mk (l ++ []) = String.mk l
    rw [List.append_nil]

theorem string_append_assoc (a b c : String) : a ++ b ++ c = a ++ (b ++ c) := by
  cases a; cases b; cases c
  show String.mk _ = String.mk _
  rw [List.append_assoc]

/-- The first two characters of a string, used to separate the renderer's
output classes. -/
def twoPre (s : String) : List Char := s.data.take 2

theorem twoPre_error_token (t u : String) :
    twoPre ("<error: unhandled time spec " ++ t ++ u) = ['<', 'e'] := by
  unfold twoPre
  rw [string_data_append, string_data_append]
  rfl

theorem twoPre_utc_offset (a b c d : String) :
    twoPre ("UTC" ++ a ++ b ++ c ++ d) = ['U', 'T'] := by
  unfold twoPre
  rw [string_data_append, string_data_append, string_data_append, string_data_append]
  rfl

theorem timeZoneId_two (o : Int) :
    timeZoneId 2 o =
      "UTC" ++ (if o < 0 then "-" else "+")
          ++ fmt0d 2 (Int.ofNat (o.natAbs / 3600)) ++ ":"
          ++ fmt0d 2 (Int.ofNat (o.natAbs % 3600 / 60)) := by
  unfold timeZoneId
  rw [if_neg (by norm_num), if_neg (by norm_num), if_pos rfl]

/-- C3: QDate rendering: Julian day 0 is the invalid sentinel; day
numbers at or above 2299161 go through the Gregorian-branch integer
formula and all others through the Julian-branch formula (truncating
integer arithmetic only); the boundary days 2299161 and 2299160 render
as 1582-10-15 and the Julian date 1582-10-04 one calendar day earlier. -/
theorem c3_qdate_julian_day :
    qdate_to_string 0 = "invalid QDate" ∧
    (∀ jd : Int, jd ≠ 0 → 2299161 ≤ jd → qdate_to_string jd = gregorianDateString jd) ∧
    (∀ jd : Int, jd ≠ 0 → jd < 2299161 → qdate_to_string jd = julianDateString jd) ∧
    qdate_to_string 2299161 = "1582-10-15" ∧
    qdate_to_string 2299160 = "1582-10-04" := by
  refine ⟨by decide, ?_, ?_, by decide, by decide⟩
  · intro jd h0 hge
    unfold qdate_to_string gregorianDateString
    rw [if_neg h0, if_pos hge]
  · intro jd h0 hlt
    unfold qdate_to_string julianDateString
    rw [if_neg h0, if_neg (by omega : ¬ 2299161 ≤ jd)]

/-- C3 witness: the branch equalities applied at concrete day numbers on
each side of the threshold. -/
theorem c3_qdate_julian_day_witness :
    qdate_to_string 2300000 = gregorianDateString 2300000 ∧
    qdate_to_string 100 = julianDateString 100 :=
  ⟨c3_qdate_julian_day.2.1 2300000 (by decide) (by decide),
   c3_qdate_julian_day.2.2.1 100 (by decide) (by decide)⟩

/-- C6: QTime rendering: the count -1 is the invalid sentinel; any other
count splits into hour, minute, second and millisecond by truncating
division and remainder against 3600000, 60000 and 1000 (the second via
msecs/1000 mod 60); the count 3661000 renders as "01:01:01.000". -/
theorem c6_qtime_rendering :
    qtime_to_string (-1) = "invalid QTime" ∧
    (∀ ds : Int, ds ≠ -1 →
      qtime_to_string ds =
        fmt0d 2 (Int.tdiv ds 3600000) ++ ":"
          ++ fmt0d 2 (Int.tdiv (Int.tmod ds 3600000) 60000) ++ ":"
          ++ fmt0d 2 (Int.tmod (Int.tdiv ds 1000) 60) ++ "."
          ++ fmt0d 3 (Int.tmod ds 1000)) ∧
    qtime_to_string 3661000 = "01:01:01.000" := by
  refine ⟨by decide, ?_, by decide⟩
  intro ds h
  unfold qtime_to_string
  rw [if_neg h]

/-- C6 witness: the splitting formula applied at a concrete count. -/
theorem c6_qtime_rendering_witness :
    qtime_to_string 7322003 =
      fmt0d 2 (Int.tdiv 7322003 3600000) ++ ":"
        ++ fmt0d 2 (Int.tdiv (Int.tmod 7322003 3600000) 60000) ++ ":"
        ++ fmt0d 2 (Int.tmod (Int.tdiv 7322003 1000) 60) ++ "."
        ++ fmt0d 3 (Int.tmod 7322003 1000) :=
  c6_qtime_rendering.2.1 7322003 (by decide)

/-- C7: the zone-spec renderer formats FixedOffset (spec 2) as UTC+-HH:MM
from the signed offset, -9000 giving "UTC-02:30"; any spec value outside
the enumeration 0..3 yields the explicit error token, which differs from
every known case string ("Local", "UTC", "<invalid>" and every
fixed-offset rendering). -/
theorem c7_zone_spec_rendering :
    timeZoneId 2 (-9000) = "UTC-02:30" ∧
    (∀ spec offset : Int, spec ≠ 0 → spec ≠ 1 → spec ≠ 2 → spec ≠ 3 →
      timeZoneId spec offset = "<error: unhandled time spec " ++ toString spec ++ ">" ∧
      timeZoneId spec offset ≠ "Local" ∧
      timeZoneId spec offset ≠ "UTC" ∧
      timeZoneId spec offset ≠ "<invalid>" ∧
      ∀ o2 : Int, timeZoneId spec offset ≠ timeZoneId 2 o2) := by
  constructor
  · decide
  · intro spec offset h0 h1 h2 h3
    have herr : timeZoneId spec offset
        = "<error: unhandled time spec " ++ toString spec ++ ">" := by
      unfold timeZoneId
      rw [if_neg h0, if_neg h1, if_neg h2, if_neg h3]
    refine ⟨herr, ?_, ?_, ?_, ?_⟩
    · intro h
      have h2p := congrArg twoPre (herr.symm.trans h)
      rw [twoPre_error_token] at h2p
      exact absurd h2p (by decide)
    · intro h
      have h2p := congrArg twoPre (herr.symm.trans h)
      rw [twoPre_error_token] at h2p
      exact absurd h2p (by decide)
    · intro h
      have h2p := congrArg twoPre (herr.symm.trans h)
      rw [twoPre_error_token] at h2p
      exact absurd h2p (by decide)
    · intro o2 h
      have h2p := congrArg twoPre (herr.symm.trans (h.trans (timeZoneId_two o2)))
      rw [twoPre_error_token, twoPre_utc_offset] at h2p
      exact absurd h2p (by decide)

/-- C7 witness: the error-token branch at the concrete out-of-range
spec value 7. -/
theorem c7_zone_spec_rendering_witness :
    timeZoneId 7 0 = "<error: unhandled time spec " ++ toString (7 : Int) ++ ">" ∧
    timeZoneId 7 0 ≠ "Local" ∧ timeZoneId 7 0 ≠ "UTC" ∧ timeZoneId 7 0 ≠ "<invalid>" ∧
    ∀ o2 : Int, timeZoneId 7 0 ≠ timeZoneId 2 o2 :=
  c7_zone_spec_rendering.2 7 0 (by decide) (by decide) (by decide) (by decide)

/-- C8: the URL decoder with decoded fields scheme "https", empty
username, host "example.com", port -1, path "/a" and empty query and
fragment renders exactly "https://example.com/a". -/
theorem c8_qurl_render :
    qurl_to_string (some { port := -1, scheme := "https", username := "",
                           host := "example.com", path := "/a",
                           query := "", fragment := "" })
      = "https://example.com/a" := by
  decide

/-- C10: when the decoded host is empty the renderer omits the username
and the port entirely, whatever their values, leaving only the scheme
part, the path, and the optional query and fragment parts. -/
theorem c10_empty_host_omits_userinfo_and_port
    (port : Int) (scheme username path query fragment : String) :
    composeUrl { port := port, scheme := scheme, username := username,
                 host := "", path := path, query := query, fragment := fragment }
      = (if 0 < scheme.length then scheme ++ "://" else "") ++ path
        ++ (if 0 < query.length then "?" ++ query else "")
        ++ (if 0 < fragment.length then "#" ++ fragment else "") := by
  have hh : ¬ 0 < ("" : String).length := by decide
  by_cases hs : 0 < scheme.length <;> by_cases hq : 0 < query.length <;>
    by_cases hf : 0 < fragment.length <;>
      simp only [composeUrl, hh, hs, hq, hf, if_true, if_false, ite_true, ite_false,
        string_empty_append, string_append_empty, string_append_assoc]

/-
  Span-indexed hash table embedding (QHashPrinter.QHashIterator,
  core.py lines 309-457).  Memory is frozen: a span's offset and entry
  arrays are total functions on indices, matching gdb reads of a stopped
  inferior.  A chain pointer (QMultiHash) is a List, [] being null.
-/

/-- One span: a 128-slot offset array and its entry storage. -/
structure Span (N : Type) where
  offsets : Nat → Nat
  entries : Nat → N

/-- The hash table root (QHashPrivate::Data): stored size, bucket count
and span array. -/
structure HashData (N : Type) where
  size : Int
  numBuckets : Nat
  spans : Nat → Span N

/-- A single-valued hash node (QHashPrivate::Node). -/
structure Node (K V : Type) where
  key : K
  value : V

/-- A multi-valued hash node (QHashPrivate::MultiNode): the value field
is the chain pointer, a list of chained values ([] = null). -/
structure MultiNode (K V : Type) where
  key : K
  value : List V

/-- Port of iterator.span(): bucket >> 7 (SpanConstants::SpanShift). -/
def span (bucket : Nat) : Nat := bucket >>> 7

/-- Port of iterator.index(): bucket & 127 (SpanConstants::LocalBucketMask). -/
def index (bucket : Nat) : Nat := bucket &&& 127

/-- Port of iterator.isUnused(): the slot's stored offset equals the
sentinel 0xFF (SpanConstants::UnusedEntry). -/
def isUnused {N : Type} (d : HashData N) (bucket : Nat) : Bool :=
  (d.spans (span bucket)).offsets (index bucket) == 255

/-- Port of iterator.computeCurrentNode(): none (with a printed report)
when the slot offset is the unused sentinel, else the entry the offset
selects in the span's entry array. -/
def computeCurrentNode {N : Type} (d : HashData N) (bucket : Nat) : Option N :=
  let offset := (d.spans (span bucket)).offsets (index bucket)
  if offset == 255 then none
  else some ((d.spans (span bucket)).entries offset)

/-- Cursor of the single-valued iteration (isMulti = False). -/
structure SIter (N : Type) where
  alive : Bool
  bucket : Nat
  count : Nat
  currentNode : Option N

/-- The `while True` loop body of iterator.nextNode(), fuelled by the
remaining bucket count: the bucket the walk stops at (none = table
exhausted). -/
def nextNodeLoop {N : Type} (d : HashData N) : Nat → Nat → Option Nat
  | _, 0 => none
  | bucket, fuel + 1 =>
    let b := bucket + 1
    if b = d.numBuckets then none
    else if isUnused d b then nextNodeLoop d b fuel
    else some b

/-- Port of updateCurrentNode() in single-valued mode. -/
def updateCurrentNodeS {N : Type} (d : HashData N) (st : SIter N) : SIter N :=
  { st with currentNode := computeCurrentNode d st.bucket }

/-- Port of nextNode() in single-valued mode: advance to the next used
bucket, or release the cursor (d_ptr = 0, bucket = 0) at the end. -/
def nextNodeS {N : Type} (d : HashData N) (st : SIter N) : SIter N :=
  match nextNodeLoop d st.bucket (d.numBuckets - st.bucket) with
  | none => { st with alive := false, bucket := 0 }
  | some b => updateCurrentNodeS d { st with bucket := b }

/-- Port of firstNode() in single-valued mode. -/
def firstNodeS {N : Type} (d : HashData N) : SIter N :=
  let st : SIter N := { alive := true, bucket := 0, count := 0, currentNode := none }
  if isUnused d 0 then nextNodeS d st else updateCurrentNodeS d st

/-- Port of the single-valued branch of iterator.__next__: StopIteration
is `.ok none`, a failed assert is `.error`. -/
def hashNextS {N : Type} (d : HashData N) (st : SIter N) :
    Except String (Option ((String × N) × SIter N)) :=
  if st.alive then
    match st.currentNode with
    | some node =>
      .ok (some (("[" ++ toString st.count ++ "]", node),
                 nextNodeS d { st with count := st.count + 1 }))
    | none => .error "AssertionError"
  else .ok none

/-- Driving the single-valued iterator: the child list produced by
`fuel` host calls of __next__. -/
def runAux {N : Type} (d : HashData N) : SIter N → Nat → Except String (List (String × N))
  | _, 0 => .ok []
  | st, fuel + 1 =>
    match hashNextS d st with
    | .error e => .error e
    | .ok none => .ok []
    | .ok (some (item, st')) =>
      match runAux d st' fuel with
      | .error e => .error e
      | .ok items => .ok (item :: items)

/-- A QHash/QMultiHash value as the printer sees it: the template
argument names, the `d` root pointer (none = null) and the m_size field
when the value has one. -/
structure QHashVal (K V : Type) where
  keyTypeName : String
  valueTypeName : String
  d : Option (HashData (Node K V))
  m_size : Option Int

/-- Port of QHashPrinter.num_children (core.py lines 430-437). -/
def qhash_num_children {K V : Type} (v : QHashVal K V) : Int :=
  match v.m_size with
  | some s => s
  | none =>
    match v.d with
    | some data => data.size
    | none => 0

/-- Port of QHashPrinter.to_string (core.py lines 439-440). -/
def qhash_to_string {K V : Type} (v : QHashVal K V) : String :=
  "QHash<" ++ v.keyTypeName ++ ", " ++ v.valueTypeName ++ "> with size = "
    ++ toString (qhash_num_children v)

/-- Port of QHashPrinter.children (core.py lines 424-428) run to a list:
a null root yields the empty sequence, else the iterator is created and
driven `fuel` times. -/
def qhash_children_run {K V : Type} (v : QHashVal K V) (fuel : Nat) :
    Except String (List (String × Node K V)) :=
  match v.d with
  | none => .ok []
  | some data => runAux data (firstNodeS data) fuel

/-- Cursor of the multi-valued iteration (isMulti = True): the chain
field is the current chain pointer. -/
structure MIter (K V : Type) where
  alive : Bool
  bucket : Nat
  count : Nat
  currentNode : Option (MultiNode K V)
  chain : List V

/-- Port of updateCurrentNode() in multi-valued mode: the assert on the
computed node raises when the slot offset was the unused sentinel. -/
def updateCurrentNodeM {K V : Type} (d : HashData (MultiNode K V)) (st : MIter K V) :
    Except String (MIter K V) :=
  match computeCurrentNode d st.bucket with
  | none => .error "AssertionError"
  | some node => .ok { st with currentNode := some node, chain := node.value }

/-- Port of nextNode() in multi-valued mode. -/
def nextNodeM {K V : Type} (d : HashData (MultiNode K V)) (st : MIter K V) :
    Except String (MIter K V) :=
  match nextNodeLoop d st.bucket (d.numBuckets - st.bucket) with
  | none => .ok { st with alive := false, bucket := 0 }
  | some b => updateCurrentNodeM d { st with bucket := b }

/-- Port of the multi-valued branch of iterator.__next__: emit the chain
cell the chain pointer designates, step the chain pointer, and advance
the bucket walk only once the chain is exhausted.  A null chain pointer
faults on the `next` field read. -/
def multiNext {K V : Type} (d : HashData (MultiNode K V)) (st : MIter K V) :
    Except String (Option ((String × V) × MIter K V)) :=
  if st.alive then
    match st.chain with
    | [] => .error "MemoryError"
    | v :: rest =>
      let label := "[" ++ toString st.count ++ "]"
      let st1 := { st with count := st.count + 1, chain := rest }
      match rest with
      | [] =>
        match nextNodeM d st1 with
        | .error e => .error e
        | .ok st2 => .ok (some ((label, v), st2))
      | _ :: _ => .ok (some ((label, v), st1))
  else .ok none

/-- C1: slot addressing during the walk: the span index is bucket >> 7 =
bucket / 128 and the local index bucket & 127 = bucket % 128; a bucket is
classified unused exactly when the slot offset stored there equals the
sentinel 0xFF; and a slot whose offset is 0xFF never yields a node. -/
theorem c1_slot_addressing {N : Type} (d : HashData N) (b : Nat) :
    span b = b / 128 ∧ index b = b % 128 ∧
    (isUnused d b = true ↔ (d.spans (b / 128)).offsets (b % 128) = 255) ∧
    ((d.spans (span b)).offsets (index b) = 255 → computeCurrentNode d b = none) := by
  have hspan : span b = b / 128 := by
    unfold span
    rw [Nat.shiftRight_eq_div_pow]
  have hidx : index b = b % 128 := by
    unfold index
    have h := Nat.and_pow_two_sub_one_eq_mod b 7
    norm_num at h
    exact h
  refine ⟨hspan, hidx, ?_, ?_⟩
  · unfold isUnused
    rw [hspan, hidx, beq_iff_eq]
  · intro hoff
    simp [computeCurrentNode, hoff]

/-- Concrete hash data for the C1 witness: every slot unused. -/
def hashDataC1 : HashData (Node Nat Nat) :=
  { size := 0, numBuckets := 256,
    spans := fun _ => { offsets := fun _ => 255, entries := fun _ => ⟨0, 0⟩ } }

/-- C1 witness: slot addressing evaluated at bucket 130 of a concrete
table whose slot offset is the sentinel. -/
theorem c1_slot_addressing_witness :
    span 130 = 130 / 128 ∧ index 130 = 130 % 128 ∧
    (isUnused hashDataC1 130 = true ↔
      (hashDataC1.spans (130 / 128)).offsets (130 % 128) = 255) ∧
    ((hashDataC1.spans (span 130)).offsets (index 130) = 255 →
      computeCurrentNode hashDataC1 130 = none) :=
  c1_slot_addressing hashDataC1 130

/-- The bucket the nextNode loop stops at is classified used. -/
theorem nextNodeLoop_isUnused {N : Type} (d : HashData N) :
    ∀ fuel b b', nextNodeLoop d b fuel = some b' → isUnused d b' = false := by
  intro fuel
  induction fuel with
  | zero => intro b b' h; exact absurd h (by simp [nextNodeLoop])
  | succ f ih =>
    intro b b' h
    unfold nextNodeLoop at h
    by_cases h1 : b + 1 = d.numBuckets
    · rw [if_pos h1] at h; exact absurd h (by simp)
    · rw [if_neg h1] at h
      by_cases h2 : isUnused d (b + 1) = true
      · rw [if_pos h2] at h
        exact ih (b + 1) b' h
      · rw [if_neg h2] at h
        have hb' : b + 1 = b' := Option.some.inj h
        rw [← hb']
        simpa using h2

/-- When the nextNode loop finds a bucket, it is the least used bucket
strictly after the start. -/
theorem nextNodeLoop_some_spec {N : Type} (d : HashData N) :
    ∀ fuel b b', b + fuel ≤ d.numBuckets → nextNodeLoop d b fuel = some b' →
      b < b' ∧ b' < d.numBuckets ∧ isUnused d b' = false ∧
      ∀ c, b < c → c < b' → isUnused d c = true := by
  intro fuel
  induction fuel with
  | zero => intro b b' _ h; exact absurd h (by simp [nextNodeLoop])
  | succ f ih =>
    intro b b' hb h
    unfold nextNodeLoop at h
    by_cases h1 : b + 1 = d.numBuckets
    · rw [if_pos h1] at h; exact absurd h (by simp)
    · rw [if_neg h1] at h
      by_cases h2 : isUnused d (b + 1) = true
      · rw [if_pos h2] at h
        obtain ⟨ha, hbn, hu, hmin⟩ := ih (b + 1) b' (by omega) h
        refine ⟨by omega, hbn, hu, ?_⟩
        intro c hc1 hc2
        rcases Nat.lt_or_ge (b + 1) c with hgt | hle
        · exact hmin c hgt hc2
        · have hc : c = b + 1 := by omega
          rw [hc]; exact h2
      · rw [if_neg h2] at h
        have hb' : b + 1 = b' := Option.some.inj h
        refine ⟨by omega, by omega, by rw [← hb']; simpa using h2, ?_⟩
        intro c hc1 hc2
        exact absurd hc2 (by omega)

/-- When the nextNode loop exhausts the table, every later bucket is
unused. -/
theorem nextNodeLoop_none_spec {N : Type} (d : HashData N) :
    ∀ fuel b, d.numBuckets ≤ b + fuel → nextNodeLoop d b fuel = none →
      ∀ c, b < c → c < d.numBuckets → isUnused d c = true := by
  intro fuel
  induction fuel with
  | zero => intro b hb _ c hc1 hc2; exact absurd hc2 (by omega)
  | succ f ih =>
    intro b hb h c hc1 hc2
    unfold nextNodeLoop at h
    by_cases h1 : b + 1 = d.numBuckets
    · rw [if_pos h1] at h
      exact absurd hc2 (by omega)
    · rw [if_neg h1] at h
      by_cases h2 : isUnused d (b + 1) = true
      · rw [if_pos h2] at h
        rcases Nat.lt_or_ge (b + 1) c with hgt | hle
        · exact ih (b + 1) (by omega) h c hgt hc2
        · have hc : c = b + 1 := by omega
          rw [hc]; exact h2
      · rw [if_neg h2] at h; exact absurd h (by simp)

/-- On a used bucket the node computation always yields the addressed
entry. -/
theorem computeCurrentNode_of_used {N : Type} (d : HashData N) (b : Nat)
    (h : isUnused d b = false) :
    computeCurrentNode d b
      = some ((d.spans (span b)).entries ((d.spans (span b)).offsets (index b))) := by
  unfold isUnused at h
  simp [computeCurrentNode, h]

/-- The multi-mode bucket advance never raises: it only visits buckets
the loop classified used, whose slot offset is not the sentinel. -/
theorem nextNodeM_ok {K V : Type} (d : HashData (MultiNode K V)) (st : MIter K V) :
    ∃ st', nextNodeM d st = .ok st' := by
  unfold nextNodeM
  cases hloop : nextNodeLoop d st.bucket (d.numBuckets - st.bucket) with
  | none => exact ⟨_, rfl⟩
  | some b =>
    have hu := nextNodeLoop_isUnused d _ st.bucket b hloop
    simp only [updateCurrentNodeM]
    rw [computeCurrentNode_of_used d b hu]
    exact ⟨_, rfl⟩

/-- C4 counterexample data: a single bucket whose slot offset is the
unused sentinel 0xFF. -/
def hashDataC4 : HashData (MultiNode Nat Nat) :=
  { size := 1, numBuckets := 1,
    spans := fun _ => { offsets := fun _ => 255, entries := fun _ => ⟨0, []⟩ } }

def iterC4 : MIter Nat Nat :=
  { alive := true, bucket := 0, count := 0, currentNode := none, chain := [] }

/-- C4 counterexample: at a bucket whose slot offset is 0xFF the node
computation reports and yields no node, but the enclosing multi-mode
update then raises an AssertionError that propagates uncaught: the
decode step aborts instead of returning a best-effort result. -/
theorem c4_counterexample_assert_propagates :
    computeCurrentNode hashDataC4 0 = none ∧
    updateCurrentNodeM hashDataC4 iterC4 = .error "AssertionError" :=
  ⟨rfl, rfl⟩

/-- C4 (amended): whenever the slot offset at the iterator's bucket is
the sentinel 0xFF, the node computation reports the inconsistency and
yields no node — the walk never continues past it — but the enclosing
multi-mode update raises an AssertionError that propagates uncaught
rather than returning a best-effort result; the bucket advance itself
can never raise it, because it only visits buckets classified used. -/
theorem c4_sentinel_offset_behaviour {K V : Type} (d : HashData (MultiNode K V))
    (st : MIter K V)
    (h : (d.spans (span st.bucket)).offsets (index st.bucket) = 255) :
    computeCurrentNode d st.bucket = none ∧
    updateCurrentNodeM d st = .error "AssertionError" ∧
    ∀ st2 : MIter K V, ∃ st3, nextNodeM d st2 = .ok st3 := by
  have hcc : computeCurrentNode d st.bucket = none := by
    simp [computeCurrentNode, h]
  refine ⟨hcc, ?_, fun st2 => nextNodeM_ok d st2⟩
  unfold updateCurrentNodeM
  rw [hcc]

/-- C4 witness: the amended behaviour at the concrete one-bucket table
whose slot offset is the sentinel. -/
theorem c4_sentinel_offset_behaviour_witness :
    computeCurrentNode hashDataC4 iterC4.bucket = none ∧
    updateCurrentNodeM hashDataC4 iterC4 = .error "AssertionError" ∧
    ∀ st2 : MIter Nat Nat, ∃ st3, nextNodeM hashDataC4 st2 = .ok st3 :=
  c4_sentinel_offset_behaviour hashDataC4 iterC4 rfl

/-- C5: a null bucket-table root pointer: children is the empty sequence
and the display string reports size = 0, with no fault.  (The m_size
hypothesis encodes the Qt invariant that a QMultiHash whose root is null
stores size 0; a plain QHash has no m_size field at all.) -/
theorem c5_null_root_empty {K V : Type} (v : QHashVal K V) (fuel : Nat)
    (hd : v.d = none) (hm : v.m_size = none ∨ v.m_size = some 0) :
    qhash_children_run v fuel = .ok [] ∧
    qhash_to_string v
      = "QHash<" ++ v.keyTypeName ++ ", " ++ v.valueTypeName ++ "> with size = 0" := by
  constructor
  · unfold qhash_children_run
    rw [hd]
  · have hnum : qhash_num_children v = 0 := by
      unfold qhash_num_children
      rcases hm with hm | hm
      · rw [hm, hd]
      · rw [hm]
    unfold qhash_to_string
    rw [hnum, string_append_assoc]
    congr 1

def qhashValC5 : QHashVal Nat Nat :=
  { keyTypeName := "int", valueTypeName := "int", d := none, m_size := none }

/-- C5 witness: the null-root behaviour at a concrete QHash value. -/
theorem c5_null_root_empty_witness :
    qhash_children_run qhashValC5 3 = .ok [] ∧
    qhash_to_string qhashValC5 = "QHash<" ++ "int" ++ ", " ++ "int" ++ "> with size = 0" :=
  c5_null_root_empty qhashValC5 3 rfl (Or.inl rfl)

/-- Emitting from a chain whose pointer has a non-null successor: the
cell value is emitted and only the count and chain fields step. -/
theorem multiNext_chain_step {K V : Type} (d : HashData (MultiNode K V)) (st : MIter K V)
    (v w : V) (rest2 : List V)
    (h1 : st.alive = true) (h2 : st.chain = v :: w :: rest2) :
    multiNext d st
      = .ok (some (("[" ++ toString st.count ++ "]", v),
                   { st with count := st.count + 1, chain := w :: rest2 })) := by
  unfold multiNext
  rw [if_pos h1, h2]

/-- Emitting the last cell of a chain: the cell value is emitted and the
iterator advances through nextNode, which never raises. -/
theorem multiNext_chain_tail {K V : Type} (d : HashData (MultiNode K V)) (st : MIter K V)
    (v : V) (h1 : st.alive = true) (h2 : st.chain = [v]) :
    ∃ st2, nextNodeM d { st with count := st.count + 1, chain := [] } = .ok st2 ∧
      multiNext d st = .ok (some (("[" ++ toString st.count ++ "]", v), st2)) := by
  obtain ⟨st2, h⟩ := nextNodeM_ok d { st with count := st.count + 1, chain := ([] : List V) }
  refine ⟨st2, h, ?_⟩
  unfold multiNext
  rw [if_pos h1, h2]
  simp only []
  rw [h]

/-- What the multi-mode bucket advance produces: either the cursor dies
and every later bucket is unused, or it stops exactly at the least used
bucket strictly after the current one. -/
theorem nextNodeM_spec {K V : Type} (d : HashData (MultiNode K V)) (st st' : MIter K V)
    (h : nextNodeM d st = .ok st') (halive : st.alive = true)
    (hb : st.bucket ≤ d.numBuckets) :
    (st'.alive = true →
      st.bucket < st'.bucket ∧ st'.bucket < d.numBuckets ∧
      isUnused d st'.bucket = false ∧
      ∀ c, st.bucket < c → c < st'.bucket → isUnused d c = true) ∧
    (st'.alive = false →
      ∀ c, st.bucket < c → c < d.numBuckets → isUnused d c = true) := by
  unfold nextNodeM at h
  cases hloop : nextNodeLoop d st.bucket (d.numBuckets - st.bucket) with
  | none =>
    rw [hloop] at h
    have hst' : st' = { st with alive := false, bucket := 0 } := (Except.ok.inj h).symm
    subst hst'
    constructor
    · intro hcontr; simp at hcontr
    · intro _
      exact nextNodeLoop_none_spec d _ st.bucket (by omega) hloop
  | some b =>
    rw [hloop] at h
    have hu := nextNodeLoop_isUnused d _ st.bucket b hloop
    simp only [updateCurrentNodeM] at h
    rw [computeCurrentNode_of_used d b hu] at h
    have hst' := (Except.ok.inj h).symm
    subst hst'
    obtain ⟨hlt, hltn, hu', hmin⟩ :=
      nextNodeLoop_some_spec d (d.numBuckets - st.bucket) st.bucket b (by omega) hloop
    constructor
    · intro _
      exact ⟨hlt, hltn, hu', hmin⟩
    · intro hcontr
      simp [halive] at hcontr

/-- C2: multi-valued mode: after each emission the iterator has followed
the emitted cell's chain pointer; while that pointer is non-null the next
emission is the chained value, with the bucket and the current node (and
so the key) unchanged; only when the pointer is null does the iterator
advance, and then exactly to the next used bucket (or to the released end
state when none remains). -/
theorem c2_multihash_chain {K V : Type} (d : HashData (MultiNode K V)) (st : MIter K V)
    (v : V) (rest : List V)
    (halive : st.alive = true) (hb : st.bucket < d.numBuckets)
    (hchain : st.chain = v :: rest) :
    ∃ st', multiNext d st = .ok (some (("[" ++ toString st.count ++ "]", v), st')) ∧
      (∀ w rest2, rest = w :: rest2 →
        st'.alive = true ∧ st'.bucket = st.bucket ∧
        st'.currentNode = st.currentNode ∧ st'.chain = rest ∧
        ∃ st2, multiNext d st'
          = .ok (some (("[" ++ toString (st.count + 1) ++ "]", w), st2))) ∧
      (rest = [] →
        (st'.alive = true →
          st.bucket < st'.bucket ∧ st'.bucket < d.numBuckets ∧
          isUnused d st'.bucket = false ∧
          ∀ c, st.bucket < c → c < st'.bucket → isUnused d c = true) ∧
        (st'.alive = false →
          ∀ c, st.bucket < c → c < d.numBuckets → isUnused d c = true)) := by
  cases rest with
  | cons w rest2 =>
    refine ⟨{ st with count := st.count + 1, chain := w :: rest2 },
      multiNext_chain_step d st v w rest2 halive hchain, ?_, ?_⟩
    · intro w' rest2' heq
      obtain ⟨hw, hr⟩ := List.cons.inj heq
      subst hw; subst hr
      refine ⟨halive, rfl, rfl, rfl, ?_⟩
      cases rest2 with
      | nil =>
        obtain ⟨st2, _, hm⟩ := multiNext_chain_tail d
          { st with count := st.count + 1, chain := [w] } w halive rfl
        exact ⟨st2, hm⟩
      | cons u us =>
        exact ⟨_, multiNext_chain_step d
          { st with count := st.count + 1, chain := w :: u :: us } w u us halive rfl⟩
    · intro heq; exact absurd heq (by simp)
  | nil =>
    obtain ⟨st2, hok, hm⟩ := multiNext_chain_tail d st v halive hchain
    refine ⟨st2, hm, ?_, ?_⟩
    · intro w rest2 heq; exact absurd heq (by simp)
    · intro _
      exact nextNodeM_spec d { st with count := st.count + 1, chain := [] } st2 hok halive
        (le_of_lt hb)

/-- Concrete multi-valued table for the C2 witness: bucket 0 used with a
two-cell chain, bucket 1 unused. -/
def hashDataC2 : HashData (MultiNode Nat Nat) :=
  { size := 2, numBuckets := 2,
    spans := fun _ => { offsets := fun i => if i = 0 then 0 else 255,
                        entries := fun _ => ⟨7, [10, 20]⟩ } }

def iterC2 : MIter Nat Nat :=
  { alive := true, bucket := 0, count := 0,
    currentNode := some ⟨7, [10, 20]⟩, chain := [10, 20] }

/-- C2 witness: the chain-following behaviour at a concrete two-cell
chain. -/
theorem c2_multihash_chain_witness :
    ∃ st', multiNext hashDataC2 iterC2
        = .ok (some (("[" ++ toString (0 : Nat) ++ "]", 10), st')) ∧
      (∀ w rest2, [20] = w :: rest2 →
        st'.alive = true ∧ st'.bucket = iterC2.bucket ∧
        st'.currentNode = iterC2.currentNode ∧ st'.chain = [20] ∧
        ∃ st2, multiNext hashDataC2 st'
          = .ok (some (("[" ++ toString (0 + 1 : Nat) ++ "]", w), st2))) ∧
      (([20] : List Nat) = [] →
        (st'.alive = true →
          iterC2.bucket < st'.bucket ∧ st'.bucket < hashDataC2.numBuckets ∧
          isUnused hashDataC2 st'.bucket = false ∧
          ∀ c, iterC2.bucket < c → c < st'.bucket → isUnused hashDataC2 c = true) ∧
        (st'.alive = false →
          ∀ c, iterC2.bucket < c → c < hashDataC2.numBuckets →
            isUnused hashDataC2 c = true)) :=
  c2_multihash_chain hashDataC2 iterC2 10 [20] rfl (by decide) rfl

/-- Bound on the number of host calls the single-valued iteration can
make progress for, from a given cursor. -/
def iterMeasure {N : Type} (d : HashData N) (st : SIter N) : Nat :=
  if st.alive then max 1 (d.numBuckets + 2 - st.bucket) else 1

theorem one_le_iterMeasure {N : Type} (d : HashData N) (st : SIter N) :
    1 ≤ iterMeasure d st := by
  unfold iterMeasure
  split <;> omega

theorem iterMeasure_le {N : Type} (d : HashData N) (st : SIter N) :
    iterMeasure d st ≤ d.numBuckets + 2 := by
  unfold iterMeasure
  split <;> omega

/-- A released cursor yields nothing, whatever the host does. -/
theorem runAux_dead {N : Type} (d : HashData N) (st : SIter N)
    (h : st.alive = false) (fuel : Nat) : runAux d st fuel = .ok [] := by
  cases fuel with
  | zero => rfl
  | succ f => simp [runAux, hashNextS, h]

/-- The single-valued bucket advance either releases the cursor or moves
it to a strictly later bucket inside the table, preserving liveness. -/
theorem nextNodeS_spec {N : Type} (d : HashData N) (s : SIter N) :
    (nextNodeS d s).alive = false ∨
      (s.bucket < (nextNodeS d s).bucket ∧ (nextNodeS d s).bucket < d.numBuckets ∧
        (nextNodeS d s).alive = s.alive) := by
  unfold nextNodeS
  cases hloop : nextNodeLoop d s.bucket (d.numBuckets - s.bucket) with
  | none => left; rfl
  | some b =>
    right
    have hble : s.bucket ≤ d.numBuckets := by
      by_contra hc
      have h0 : d.numBuckets - s.bucket = 0 := by omega
      rw [h0] at hloop
      exact absurd hloop (by simp [nextNodeLoop])
    obtain ⟨hlt, hltn, _, _⟩ :=
      nextNodeLoop_some_spec d (d.numBuckets - s.bucket) s.bucket b (by omega) hloop
    exact ⟨hlt, hltn, rfl⟩

/-- A successful single-valued step either releases the cursor or moves
it to a strictly later bucket inside the table. -/
theorem hashNextS_step {N : Type} (d : HashData N) (st st' : SIter N)
    (item : String × N) (h : hashNextS d st = .ok (some (item, st'))) :
    st.alive = true ∧
    (st'.alive = false ∨
      (st.bucket < st'.bucket ∧ st'.bucket < d.numBuckets ∧ st'.alive = true)) := by
  unfold hashNextS at h
  by_cases ha : st.alive = true
  · rw [if_pos ha] at h
    refine ⟨ha, ?_⟩
    cases hcn : st.currentNode with
    | none => rw [hcn] at h; cases h
    | some node =>
      rw [hcn] at h
      obtain ⟨-, hsnd⟩ := Prod.mk.inj (Option.some.inj (Except.ok.inj h))
      subst hsnd
      rcases nextNodeS_spec d { st with count := st.count + 1, currentNode := some node }
        with hd | ⟨h1, h2, h3⟩
      · exact Or.inl hd
      · exact Or.inr ⟨h1, h2, h3.trans ha⟩
  · rw [if_neg ha] at h; cases h

/-- Driving the iterator is fuel-independent past the saturation bound:
any two sufficiently long host runs produce the same child list. -/
theorem runAux_fuel_indep {N : Type} (d : HashData N) :
    ∀ f g (st : SIter N), iterMeasure d st ≤ f → iterMeasure d st ≤ g →
      runAux d st f = runAux d st g := by
  intro f
  induction f with
  | zero =>
    intro g st hf _
    exact absurd (le_trans (one_le_iterMeasure d st) hf) (by omega)
  | succ f ih =>
    intro g st hf hg
    have hg1 : 1 ≤ g := le_trans (one_le_iterMeasure d st) hg
    obtain ⟨g', rfl⟩ : ∃ g', g = g' + 1 := ⟨g - 1, by omega⟩
    unfold runAux
    cases hs : hashNextS d st with
    | error e => rfl
    | ok o =>
      cases o with
      | none => rfl
      | some p =>
        obtain ⟨item, st'⟩ := p
        by_cases ha' : st'.alive = true
        · obtain ⟨halive, hstep⟩ := hashNextS_step d st st' item hs
          rcases hstep with hdead | ⟨h1, h2, _⟩
          · rw [ha'] at hdead; cases hdead
          · have hmlt : iterMeasure d st' < iterMeasure d st := by
              unfold iterMeasure
              rw [if_pos ha', if_pos halive]
              omega
            have heq := ih g' st' (by omega) (by omega)
            simp only [heq]
        · have hf1 := runAux_dead d st' (by simpa using ha') f
          have hf2 := runAux_dead d st' (by simpa using ha') g'
          simp only [hf1, hf2]

/-- Saturation bound for a full children run of a QHash value. -/
def childrenRunBound {K V : Type} (v : QHashVal K V) : Nat :=
  match v.d with
  | none => 1
  | some data => data.numBuckets + 2

/-- C9: decoding is deterministic and restartable: on the same frozen
value, any two sufficiently long child-sequence runs (each a fresh
iterator driven from scratch) produce the same output, and to_string on
the same value twice is the same string; the embedding reads the frozen
memory only, never writing it. -/
theorem c9_decode_idempotent {K V : Type} (v : QHashVal K V) (f1 f2 : Nat)
    (h1 : childrenRunBound v ≤ f1) (h2 : childrenRunBound v ≤ f2) :
    qhash_children_run v f1 = qhash_children_run v f2 ∧
    ∀ jd : Int, qdate_to_string jd = qdate_to_string jd := by
  refine ⟨?_, fun _ => rfl⟩
  unfold qhash_children_run
  unfold childrenRunBound at h1 h2
  cases hd : v.d with
  | none => rfl
  | some data =>
    rw [hd] at h1 h2
    exact runAux_fuel_indep data f1 f2 (firstNodeS data)
      (le_trans (iterMeasure_le data _) h1) (le_trans (iterMeasure_le data _) h2)

/-- Concrete table for the C9 witness: two buckets, the first used. -/
def hashDataC9 : HashData (Node Nat Nat) :=
  { size := 1, numBuckets := 2,
    spans := fun _ => { offsets := fun i => if i = 0 then 0 else 255,
                        entries := fun _ => ⟨1, 2⟩ } }

def qhashValC9 : QHashVal Nat Nat :=
  { keyTypeName := "int", valueTypeName := "int", d := some hashDataC9, m_size := none }

/-- C9 witness: two runs of different sufficient lengths on a concrete
value coincide. -/
theorem c9_decode_idempotent_witness :
    qhash_children_run qhashValC9 4 = qhash_children_run qhashValC9 7 ∧
    ∀ jd : Int, qdate_to_string jd = qdate_to_string jd :=
  c9_decode_idempotent qhashValC9 4 7 (by decide) (by decide)
